import Mathlib

/-!
# Shallow embedding of the threat_graph event store core

This file embeds the core of `app/models/wazuh_db.py` (partition naming and
creation, document normalization via `to_dict`, Elasticsearch query
construction for the read operations, and the fault translation decorator),
together with the relevant field declarations of `app/schemas/wazuh.py`,
and proves properties about it.

Modelling conventions:
* Timestamps are modelled as `Int`.  The Python code serializes `datetime`
  values with `isoformat()` and Elasticsearch compares the resulting strings
  chronologically; ISO-8601 serialization is strictly monotone, so comparing
  the underlying instants as integers is order-faithful.
* A persisted document is an association list of field name to JSON-ish
  value (`Value.str`, `Value.int`, `Value.null`), exactly the dict produced
  by `to_dict`.
* The Elasticsearch collaborator is modelled by `runSearch`: filter the
  store by the must clauses of the query, sort per the sort spec of the query,
  truncate to `size`, and report the full match count as `hits.total.value`
  (the documented total-match count of the store).  A `range` clause on a field
  that is missing or non-numeric does not match, as in Elasticsearch.
-/

namespace ThreatGraph

/-- JSON-ish field values appearing in persisted documents. -/
inductive Value where
  | str (s : String)
  | int (n : Int)
  | null
  deriving DecidableEq, Repr

/-- A persisted document: the dict produced by `to_dict`, as an association
list from field name to value. -/
abbrev Document := List (String × Value)

/-- Field lookup in a document (first binding wins; in a Python dict the
keys are unique anyway). -/
def Document.getField (d : Document) (f : String) : Option Value :=
  (d.find? (fun kv => kv.1 == f)).map Prod.snd

/-- The timestamp of a document, defaulting to 0 when absent (only used for
sorting; every stored document carries a timestamp). -/
def docTs (d : Document) : Int :=
  match d.getField "timestamp" with
  | some (.int n) => n
  | _ => 0

/-! ## Query AST

Each read operation of `wazuh_db.py` builds a JSON query body.  We embed the
clauses that actually occur: `term`, `terms`, and `range` (with the
particular bound keys `gte`/`lte`/`lt`/`gt` used at each site). -/

inductive Clause where
  /-- Embedding of `{"term": {field: value}}` -/
  | term (field : String) (value : String)
  /-- Embedding of `{"terms": {field: values}}` -/
  | terms (field : String) (values : List String)
  /-- Embedding of `{"range": {field: {...}}}` with the optional bound keys. -/
  | range (field : String) (gte lte lt gt : Option Int)
  deriving DecidableEq, Repr

inductive SortSpec where
  | noSort
  | ascTimestamp
  | descTimestamp
  deriving DecidableEq, Repr

/-- A search body: `bool/must` clause list, sort spec, page size. -/
structure Query where
  must : List Clause
  sort : SortSpec
  size : Nat
  deriving DecidableEq, Repr

/-- Whether a document satisfies one clause, with Elasticsearch semantics:
a clause over a missing (or wrongly-typed) field does not match. -/
def matchesClause (d : Document) (c : Clause) : Bool :=
  match c with
  | .term f v => d.getField f == some (.str v)
  | .terms f vs =>
      match d.getField f with
      | some (.str s) => vs.contains s
      | _ => false
  | .range f gte lte lt gt =>
      match d.getField f with
      | some (.int n) =>
          (gte.all fun b => decide (b ≤ n)) &&
          (lte.all fun b => decide (n ≤ b)) &&
          (lt.all fun b => decide (n < b)) &&
          (gt.all fun b => decide (b < n))
      | _ => false

def matchesQuery (q : Query) (d : Document) : Bool :=
  q.must.all (matchesClause d)

/-- Embedding of `MAX_RESULTS = 10000` in `wazuh_db.py`. -/
def MAX_RESULTS : Nat := 10000

/-- Descending-timestamp order used by `{"sort": [{"timestamp": {"order":
"desc"}}]}`. -/
def tsDesc (a b : Document) : Prop := docTs b ≤ docTs a

/-- Ascending-timestamp order used by `{"sort": [{"timestamp": "asc"}]}`. -/
def tsAsc (a b : Document) : Prop := docTs a ≤ docTs b

instance : DecidableRel tsDesc := fun a b => inferInstanceAs (Decidable (_ ≤ _))
instance : DecidableRel tsAsc := fun a b => inferInstanceAs (Decidable (_ ≤ _))

instance : IsTotal Document tsDesc := ⟨fun a b => le_total (docTs b) (docTs a)⟩
instance : IsTrans Document tsDesc := ⟨fun _ _ _ h1 h2 => le_trans h2 h1⟩
instance : IsTotal Document tsAsc := ⟨fun a b => le_total (docTs a) (docTs b)⟩
instance : IsTrans Document tsAsc := ⟨fun _ _ _ h1 h2 => le_trans h1 h2⟩

def applySort (sp : SortSpec) (l : List Document) : List Document :=
  match sp with
  | .noSort => l
  | .ascTimestamp => l.insertionSort tsAsc
  | .descTimestamp => l.insertionSort tsDesc

/-- The stored content of the active partition. -/
abbrev Store := List Document

/-- Embedding of `es.search`: matching hits (sorted, truncated to `size`) together with
`hits.total.value`, the full match count. -/
def runSearch (store : Store) (q : Query) : List Document × Nat :=
  let hits := store.filter (matchesQuery q)
  ((applySort q.sort hits).take q.size, hits.length)

/-- Embedding of `es.count`: the bare match count, no result bodies. -/
def runCount (store : Store) (q : Query) : Nat :=
  (store.filter (matchesQuery q)).length

/-! ## Query builders and read operations (`wazuh_db.py`)

Each builder mirrors one query body literally: the same clauses, the same
bound keys (`gte`/`lte` vs `gte`/`lt`), the same sort spec and size.
The Python `if group_names:` test is truthy, i.e. the clause is appended only when
the optional list is supplied and non-empty. -/

/-- Embedding of `AgentModel.load_agents`: `term wazuh_data_type=agent_info`, `range
timestamp gte/lte`, optional `terms group_name`, sort desc, size
`MAX_RESULTS`. -/
def loadAgentsQuery (start_time end_time : Int)
    (group_names : Option (List String)) : Query :=
  let base := [Clause.term "wazuh_data_type" "agent_info",
               Clause.range "timestamp" (some start_time) (some end_time) none none]
  { must :=
      match group_names with
      | some gs => if gs.isEmpty then base else base ++ [Clause.terms "group_name" gs]
      | none => base,
    sort := .descTimestamp,
    size := MAX_RESULTS }

/-- Embedding of `EventModel.load_group_events_from_elasticsearch`: `range timestamp
gte/lte`, `terms group_name`, `term wazuh_data_type=wazuh_events`, size
`MAX_RESULTS`, no sort. -/
def loadGroupEventsQuery (group_names : List String)
    (start_time end_time : Int) : Query :=
  { must := [Clause.range "timestamp" (some start_time) (some end_time) none none,
             Clause.terms "group_name" group_names,
             Clause.term "wazuh_data_type" "wazuh_events"],
    sort := .noSort,
    size := MAX_RESULTS }

/-- Embedding of `EventModel.load_from_elasticsearch_with_time_range`: `range timestamp
gte/lte`, `term agent_id`, `term wazuh_data_type=wazuh_events`, size
`MAX_RESULTS`, no sort. -/
def loadAgentEventsQuery (agent_id : String)
    (start_time end_time : Int) : Query :=
  { must := [Clause.range "timestamp" (some start_time) (some end_time) none none,
             Clause.term "agent_id" agent_id,
             Clause.term "wazuh_data_type" "wazuh_events"],
    sort := .noSort,
    size := MAX_RESULTS }

/-- Embedding of `EventModel.load_all_events_from_elasticsearch`: `range timestamp
gte/lte`, `term wazuh_data_type=wazuh_events`, size `MAX_RESULTS`, no
sort. -/
def loadAllEventsQuery (start_time end_time : Int) : Query :=
  { must := [Clause.range "timestamp" (some start_time) (some end_time) none none,
             Clause.term "wazuh_data_type" "wazuh_events"],
    sort := .noSort,
    size := MAX_RESULTS }

/-- Embedding of `EventModel.get_events_in_timerange`: bare `range timestamp gte/lt`,
caller-supplied size (default 10000), sort ascending by timestamp.  No
`wazuh_data_type` clause. -/
def eventsInTimerangeQuery (start_time end_time : Int) (size : Nat) : Query :=
  { must := [Clause.range "timestamp" (some start_time) none (some end_time) none],
    sort := .ascTimestamp,
    size := size }

/-- Embedding of `EventModel.get_high_level_event_count`: `range timestamp gte/lt` and
`range rule_level gte 8 lte 14`, issued through `es.count`. -/
def highLevelCountQuery (start_time end_time : Int) : Query :=
  { must := [Clause.range "timestamp" (some start_time) none (some end_time) none,
             Clause.range "rule_level" (some 8) (some 14) none none],
    sort := .noSort,
    size := 0 }

/-- Embedding of `EventModel.get_events_for_pie_chart`: identical shape to
`get_events_in_timerange` — bare `range timestamp gte/lt`, sort asc,
caller-supplied size.  No `wazuh_data_type` clause. -/
def pieChartQuery (start_time end_time : Int) (size : Nat) : Query :=
  { must := [Clause.range "timestamp" (some start_time) none (some end_time) none],
    sort := .ascTimestamp,
    size := size }

/-- Embedding of `EventModel.load_messages`: `range timestamp gte/lt`, `range rule_level
gt 8`, optional `terms group_name`, sort desc, size `limit`. -/
def loadMessagesQuery (start_time end_time : Int)
    (group_names : Option (List String)) (limit : Nat) : Query :=
  let base := [Clause.range "timestamp" (some start_time) none (some end_time) none,
               Clause.range "rule_level" none none none (some 8)]
  { must :=
      match group_names with
      | some gs => if gs.isEmpty then base else base ++ [Clause.terms "group_name" gs]
      | none => base,
    sort := .descTimestamp,
    size := limit }

/-- Embedding of `AgentModel.load_agents` run against a store. -/
def load_agents (store : Store) (start_time end_time : Int)
    (group_names : Option (List String)) : List Document :=
  (runSearch store (loadAgentsQuery start_time end_time group_names)).1

/-- Embedding of `EventModel.load_group_events_from_elasticsearch` run against a store. -/
def load_group_events (store : Store) (group_names : List String)
    (start_time end_time : Int) : List Document :=
  (runSearch store (loadGroupEventsQuery group_names start_time end_time)).1

/-- Embedding of `EventModel.load_from_elasticsearch_with_time_range` run against a
store. -/
def load_agent_events (store : Store) (agent_id : String)
    (start_time end_time : Int) : List Document :=
  (runSearch store (loadAgentEventsQuery agent_id start_time end_time)).1

/-- Embedding of `EventModel.load_all_events_from_elasticsearch` run against a store. -/
def load_all_events (store : Store) (start_time end_time : Int) :
    List Document :=
  (runSearch store (loadAllEventsQuery start_time end_time)).1

/-- Embedding of `EventModel.get_events_in_timerange` run against a store. -/
def get_events_in_timerange (store : Store) (start_time end_time : Int)
    (size : Nat) : List Document :=
  (runSearch store (eventsInTimerangeQuery start_time end_time size)).1

/-- Embedding of `EventModel.get_high_level_event_count` run against a store: a pure
count through `es.count` — only a number comes back, no result bodies. -/
def get_high_level_event_count (store : Store) (start_time end_time : Int) :
    Nat :=
  runCount store (highLevelCountQuery start_time end_time)

/-- Embedding of `EventModel.get_events_for_pie_chart` run against a store. -/
def get_events_for_pie_chart (store : Store) (start_time end_time : Int)
    (size : Nat) : List Document :=
  (runSearch store (pieChartQuery start_time end_time size)).1

/-- Embedding of `EventModel.load_messages` run against a store: page of `_source`
documents plus `hits.total.value`. -/
def load_messages (store : Store) (start_time end_time : Int)
    (group_names : Option (List String)) (limit : Nat) :
    List Document × Nat :=
  runSearch store (loadMessagesQuery start_time end_time group_names limit)

/-! ## Domain records and normalization (`schemas/wazuh.py`, `to_dict`) -/

/-- Python `str.lower()` on the ASCII strings at issue: lowercase every
character. -/
def pyLower (s : String) : String := String.mk (s.data.map Char.toLower)

/-- Embedding of `schemas.wazuh.Agent` (pydantic): every field required. -/
structure Agent where
  agent_name : String
  agent_id : String
  ip : String
  agent_status : String
  status_code : Int
  last_keep_alive : Int
  os : String
  os_version : String
  group_name : String
  deriving DecidableEq, Repr

/-- Embedding of `schemas.wazuh.WazuhEvent` (pydantic): the three MITRE fields are
`Optional[str]` defaulting to `None`; everything else required. -/
structure WazuhEvent where
  timestamp : Int
  agent_id : String
  agent_ip : String
  rule_description : String
  rule_level : Int
  rule_id : String
  rule_mitre_id : Option String
  rule_mitre_tactic : Option String
  rule_mitre_technique : Option String
  group_name : String
  deriving DecidableEq, Repr

/-- Embedding of `AgentModel.__init__`: copies the schema fields, stamps
`wazuh_data_type = "agent_info"` and `timestamp = datetime.utcnow()` (the
ingestion capture time, passed in as `now`). -/
structure AgentModel where
  agent_name : String
  agent_id : String
  ip : String
  agent_status : String
  status_code : Int
  last_keep_alive : Int
  os : String
  os_version : String
  group_name : String
  wazuh_data_type : String
  timestamp : Int
  deriving DecidableEq, Repr

def AgentModel.ofAgent (a : Agent) (now : Int) : AgentModel :=
  { agent_name := a.agent_name
    agent_id := a.agent_id
    ip := a.ip
    agent_status := a.agent_status
    status_code := a.status_code
    last_keep_alive := a.last_keep_alive
    os := a.os
    os_version := a.os_version
    group_name := a.group_name
    wazuh_data_type := "agent_info"
    timestamp := now }

/-- Embedding of `AgentModel.to_dict`.  `str(self.agent_status).lower()` lowercases the
status; the schema guarantees `last_keep_alive` is a datetime, which is
always truthy, so its `isoformat()` branch is taken. -/
def AgentModel.to_dict (m : AgentModel) : Document :=
  [("agent_name", .str m.agent_name),
   ("agent_id", .str m.agent_id),
   ("ip", .str m.ip),
   ("agent_status", .str (pyLower m.agent_status)),
   ("status_code", .int m.status_code),
   ("last_keep_alive", .int m.last_keep_alive),
   ("os", .str m.os),
   ("os_version", .str m.os_version),
   ("group_name", .str m.group_name),
   ("wazuh_data_type", .str m.wazuh_data_type),
   ("timestamp", .int m.timestamp)]

/-- Embedding of `EventModel.__init__`: copies the schema fields and stamps
`wazuh_data_type = "wazuh_events"`. -/
structure EventModel where
  timestamp : Int
  agent_id : String
  agent_ip : String
  rule_description : String
  rule_level : Int
  rule_id : String
  rule_mitre_id : Option String
  rule_mitre_tactic : Option String
  rule_mitre_technique : Option String
  wazuh_data_type : String
  group_name : String
  deriving DecidableEq, Repr

def EventModel.ofEvent (e : WazuhEvent) : EventModel :=
  { timestamp := e.timestamp
    agent_id := e.agent_id
    agent_ip := e.agent_ip
    rule_description := e.rule_description
    rule_level := e.rule_level
    rule_id := e.rule_id
    rule_mitre_id := e.rule_mitre_id
    rule_mitre_tactic := e.rule_mitre_tactic
    rule_mitre_technique := e.rule_mitre_technique
    wazuh_data_type := "wazuh_events"
    group_name := e.group_name }

/-- A Python `Optional[str]` attribute written into a dict: `None` becomes
JSON `null` — the key stays present. -/
def optStrValue : Option String → Value
  | some s => .str s
  | none => .null

/-- Embedding of `EventModel.to_dict`: every key is emitted unconditionally; an unset
MITRE attribute is written as `None`/`null`. -/
def EventModel.to_dict (m : EventModel) : Document :=
  [("timestamp", .int m.timestamp),
   ("agent_id", .str m.agent_id),
   ("agent_ip", .str m.agent_ip),
   ("rule_description", .str m.rule_description),
   ("rule_level", .int m.rule_level),
   ("rule_id", .str m.rule_id),
   ("rule_mitre_id", optStrValue m.rule_mitre_id),
   ("rule_mitre_tactic", optStrValue m.rule_mitre_tactic),
   ("rule_mitre_technique", optStrValue m.rule_mitre_technique),
   ("group_name", .str m.group_name),
   ("wazuh_data_type", .str m.wazuh_data_type)]

/-- The documents of one index keyed by `_id` (`es.index` with an explicit
id is an upsert on that id). -/
abbrev KeyedStore := List (String × Document)

/-- Embedding of `es.index(index=..., id=..., body=...)`: replace the document under
that id, or add it. -/
def esIndexWithId : KeyedStore → String → Document → KeyedStore
  | [], id, body => [(id, body)]
  | kv :: rest, id, body =>
      if kv.1 == id then (id, body) :: rest
      else kv :: esIndexWithId rest id body

/-- Embedding of `es.get`-style retrieval by document id. -/
def esGetById (ks : KeyedStore) (id : String) : Option Document :=
  (ks.find? fun kv => kv.1 == id).map Prod.snd

/-- Embedding of `AgentModel.save_to_elasticsearch`: indexes `agent.to_dict()` under the
id `agent_{agent_id}` — an upsert keyed by agent id. -/
def agent_save_to_elasticsearch (ks : KeyedStore) (m : AgentModel) :
    KeyedStore :=
  esIndexWithId ks ("agent_" ++ m.agent_id) m.to_dict

/-! ## Partition manager (`create_index_with_mapping` / `get_index_name`) -/

/-- The fixed mapping installed at partition creation (field name, ES
type). -/
def partitionMapping : List (String × String) :=
  [("agent_name", "keyword"), ("agent_id", "keyword"), ("ip", "ip"),
   ("agent_status", "keyword"), ("status_code", "integer"),
   ("last_keep_alive", "date"), ("os", "keyword"), ("os_version", "keyword"),
   ("group_name", "keyword"), ("wazuh_data_type", "keyword"),
   ("timestamp", "date"), ("rule_description", "text"),
   ("rule_level", "integer"), ("rule_id", "keyword"),
   ("rule_mitre_id", "keyword"), ("rule_mitre_tactic", "keyword"),
   ("rule_mitre_technique", "keyword"), ("agent_ip", "ip")]

/-- Embedding of the strftime pattern Y underscore m followed by
`_agents_data`: the month is zero-padded to two digits. -/
def partitionKeyOf (year month : Nat) : String :=
  toString year ++ "_" ++
    (if month < 10 then "0" ++ toString month else toString month) ++
    "_agents_data"

/-- The index catalogue of the store: existing index names with their
mappings. -/
structure EsIndices where
  existing : List (String × List (String × String))
  deriving DecidableEq, Repr

def EsIndices.hasIndex (st : EsIndices) (name : String) : Bool :=
  st.existing.any fun kv => kv.1 == name

/-- Outcome of the store-level `es.indices.create` call, which may race
with a concurrent creator. -/
inductive CreateOutcome where
  | created
  | alreadyExists
  | otherError (msg : String)
  deriving DecidableEq, Repr

/-- Embedding of `create_index_with_mapping`: compute the month key; if the index is
absent, attempt creation — a `RequestError` whose error is
`resource_already_exists_exception` is logged and swallowed (a concurrent
creator won the race, so the index now exists), any other creation error is
re-raised; if the index is present, reuse it unmodified.  Returns the
index name. -/
def create_index_with_mapping (year month : Nat) (st : EsIndices)
    (outcome : CreateOutcome) : Except String (String × EsIndices) :=
  let index_name := partitionKeyOf year month
  if st.hasIndex index_name then
    .ok (index_name, st)
  else
    match outcome with
    | .created =>
        .ok (index_name, ⟨(index_name, partitionMapping) :: st.existing⟩)
    | .alreadyExists =>
        .ok (index_name, ⟨(index_name, partitionMapping) :: st.existing⟩)
    | .otherError msg => .error msg

/-- Embedding of `get_index_name` just delegates to `create_index_with_mapping`. -/
def get_index_name (year month : Nat) (st : EsIndices)
    (outcome : CreateOutcome) : Except String (String × EsIndices) :=
  create_index_with_mapping year month st outcome

/-! ## Fault translator (`handle_es_exceptions` and the per-method
`try/except` blocks) -/

/-- Exceptions the Elasticsearch client can raise. -/
inductive StoreExc where
  | notFoundError (msg : String)
  | requestError (msg : String)
  | otherExc (msg : String)
  deriving DecidableEq, Repr

def StoreExc.msg : StoreExc → String
  | .notFoundError m => m
  | .requestError m => m
  | .otherExc m => m

/-- The domain error taxonomy (`app/ext/error.py`): `UserNotFoundError`
(the not-found fault) and `ElasticsearchError` (the store fault), each
carrying a message and an optional status code. -/
inductive DomainError where
  | userNotFound (msg : String) (code : Nat)
  | elasticsearchError (msg : String) (code : Option Nat)
  deriving DecidableEq, Repr

/-- The `str(e)` of a domain exception is modelled as its message. -/
def DomainError.pyStr : DomainError → String
  | .userNotFound m _ => m
  | .elasticsearchError m _ => m

/-- Exceptions in flight inside a wrapped method body: either a raw store
client exception, or a domain error already raised by an inner
`try/except` of the method (the decorator sees both as plain Python
exceptions). -/
inductive PyExc where
  | store (e : StoreExc)
  | domain (e : DomainError)
  deriving DecidableEq, Repr

def PyExc.pyStr : PyExc → String
  | .store e => e.msg
  | .domain d => d.pyStr

/-- The `handle_es_exceptions` decorator: a raw `NotFoundError` becomes
`UserNotFoundError(str(e), 404)`; every other exception — a raw client
exception or a domain error re-raised by an inner except block — becomes
`ElasticsearchError(f"Elasticsearch error: {e}", 500)`. -/
def handle_es_exceptions {α : Type} (r : Except PyExc α) :
    Except DomainError α :=
  match r with
  | .ok a => .ok a
  | .error (.store (.notFoundError m)) => .error (.userNotFound m 404)
  | .error e =>
      .error (.elasticsearchError ("Elasticsearch error: " ++ e.pyStr)
        (some 500))

/-- The inner `try/except Exception` that wraps the whole body of
`AgentModel.load_agents` (wazuh_db.py lines 190-192): every exception,
`NotFoundError` included, is re-raised as
`ElasticsearchError(f"Error loading agents: {e}", 500)` before the
decorator can see it. -/
def loadAgentsInner {α : Type} (r : Except StoreExc α) : Except PyExc α :=
  match r with
  | .ok a => .ok a
  | .error e =>
      .error (.domain (.elasticsearchError
        ("Error loading agents: " ++ e.msg) (some 500)))

/-- The full fault path of `load_agents`: the inner except block runs
first, the decorator second. -/
def loadAgentsTranslate {α : Type} (r : Except StoreExc α) :
    Except DomainError α :=
  handle_es_exceptions (loadAgentsInner r)

/-- The fault path of the three decorated methods without an inner except
block (`load_group_events_from_elasticsearch`,
`load_from_elasticsearch_with_time_range`,
`load_all_events_from_elasticsearch`): the raw client exception reaches
the decorator directly. -/
def decoratedTranslate {α : Type} (r : Except StoreExc α) :
    Except DomainError α :=
  handle_es_exceptions
    (match r with
     | .ok a => .ok a
     | .error e => .error (.store e))

/-- The bare `try/except Exception` inside `EventModel.load_messages`
(which is *not* decorated with `handle_es_exceptions`): every exception,
`NotFoundError` included, becomes
`ElasticsearchError(f"Error loading high-level messages: {e}")`. -/
def loadMessagesTranslate {α : Type} (r : Except StoreExc α) :
    Except DomainError α :=
  match r with
  | .ok a => .ok a
  | .error e =>
      .error (.elasticsearchError
        ("Error loading high-level messages: " ++ e.msg) none)

/-- The same pattern inside `get_events_in_timerange`,
`get_high_level_event_count` and `get_events_for_pie_chart`: every
exception becomes an `ElasticsearchError` with the message
prefix of the method. -/
def aggregationTranslate {α : Type} (msgPre : String)
    (r : Except StoreExc α) : Except DomainError α :=
  match r with
  | .ok a => .ok a
  | .error e => .error (.elasticsearchError (msgPre ++ e.msg) none)

/-- Embedding of `AgentModel.save_to_elasticsearch` / `EventModel.save_to_elasticsearch`:
the `except` block logs and re-raises the original exception — no
translation at all. -/
def saveTranslate {α : Type} (r : Except StoreExc α) : Except StoreExc α :=
  r

/-! ## Pydantic validation of the MITRE tactic field (`schemas/wazuh.py`)

`rule_mitre_tactic: Optional[str] = Field(None, ...)`. -/

/-- Incoming JSON at the ingestion boundary. -/
inductive Json where
  | null
  | str (s : String)
  | num (n : Int)
  | boolean (b : Bool)
  | arr (xs : List Json)

/-- Pydantic validation of an `Optional[str]` field: a JSON string passes
through, `null` (or an omitted field) yields `None`, and any other shape —
a number, a boolean, a list — is rejected with a `ValidationError`. -/
def validateOptionalStr (j : Json) : Except String (Option String) :=
  match j with
  | .null => .ok none
  | .str s => .ok (some s)
  | _ => .error "Input should be a valid string"

/-- Validation of `WazuhEvent.rule_mitre_tactic` as declared. -/
def validateRuleMitreTactic (j : Json) : Except String (Option String) :=
  validateOptionalStr j

/-! ## Top-N ranking for the pie-chart views -/

/-- Lexicographic comparison of char lists by code point — the order
Python uses to compare strings. -/
def charListLe : List Char → List Char → Bool
  | [], _ => true
  | _ :: _, [] => false
  | a :: as, b :: bs =>
      if a.toNat < b.toNat then true
      else if b.toNat < a.toNat then false
      else charListLe as bs

/-- Lexical (code-point) order on labels. -/
def labelLe (a b : String) : Bool := charListLe a.data b.data

/-- Ranking order for `(label, count)` pairs: higher count first, equal
counts by ascending lexical label. -/
def rankRel (a b : String × Nat) : Prop :=
  b.2 < a.2 ∨ (a.2 = b.2 ∧ labelLe a.1 b.1 = true)

instance : DecidableRel rankRel := fun a b =>
  inferInstanceAs (Decidable (_ ∨ _))

/-- Modelled from the spec: the top-N ranking computation of the pie-chart
aggregation (the controller that turns `get_events_for_pie_chart` results
into the four five-item rankings is not among the reviewed source files).
Group the grouping-key occurrences, excluding events whose key is
null/absent, count each label, and emit the `n` highest-count `(name,
value)` pairs, equal counts ordered by ascending lexical label. -/
def topN (n : Nat) (keys : List (Option String)) : List (String × Nat) :=
  let labels := keys.filterMap id
  let groups := labels.dedup.map fun l => (l, labels.count l)
  (groups.insertionSort rankRel).take n

/-! ## Spec-side predicates

These restate the wording of the spec about documents, independently of the
query AST, to compare against the queries the code builds. -/

/-- The half-open window of the spec: `start ≤ timestamp < end`. -/
def tsInWindowCO (s e : Int) (d : Document) : Bool :=
  match d.getField "timestamp" with
  | some (.int t) => decide (s ≤ t) && decide (t < e)
  | _ => false

/-- The closed window of the spec: `start ≤ timestamp ≤ end`. -/
def tsInWindowCC (s e : Int) (d : Document) : Bool :=
  match d.getField "timestamp" with
  | some (.int t) => decide (s ≤ t) && decide (t ≤ e)
  | _ => false

/-- Severity band `lo ≤ rule_level ≤ hi` (a document without an integer
`rule_level` — e.g. an agent document — is not in any band). -/
def levelInBand (lo hi : Int) (d : Document) : Bool :=
  match d.getField "rule_level" with
  | some (.int n) => decide (lo ≤ n) && decide (n ≤ hi)
  | _ => false

/-- Severity strictly above `lo`. -/
def levelAbove (lo : Int) (d : Document) : Bool :=
  match d.getField "rule_level" with
  | some (.int n) => decide (lo < n)
  | _ => false

/-- Group restriction: an omitted or empty group list imposes none;
otherwise the `group_name` of the document must be one of the listed groups. -/
def groupAllowed (gs : Option (List String)) (d : Document) : Bool :=
  match gs with
  | none => true
  | some l =>
      if l.isEmpty then true
      else
        match d.getField "group_name" with
        | some (.str g) => l.contains g
        | _ => false

/-- The predicate of the spec for the high-severity message feed: severity
strictly above 8, timestamp in the half-open window, group restriction. -/
def specMessageMatch (s e : Int) (gs : Option (List String)) (d : Document) :
    Bool :=
  tsInWindowCO s e d && levelAbove 8 d && groupAllowed gs d

/-- Whether a query carries any clause over the discriminator field
`wazuh_data_type`. -/
def hasDiscriminatorFilter (q : Query) : Bool :=
  q.must.any fun c =>
    match c with
    | .term f _ => f == "wazuh_data_type"
    | .terms f _ => f == "wazuh_data_type"
    | .range f _ _ _ _ => f == "wazuh_data_type"

/-! ## Sample records used in witnesses and counterexamples -/

/-- A concrete event record with the given timestamp and severity. -/
def mkEvent (ts lvl : Int) : WazuhEvent :=
  { timestamp := ts
    agent_id := "001"
    agent_ip := "192.168.1.100"
    rule_description := "File added to the system."
    rule_level := lvl
    rule_id := "550"
    rule_mitre_id := some "T1078"
    rule_mitre_tactic := some "Persistence"
    rule_mitre_technique := some "Valid Accounts"
    group_name := "group1" }

/-- The persisted document of `mkEvent`. -/
def evDoc (ts lvl : Int) : Document :=
  (EventModel.ofEvent (mkEvent ts lvl)).to_dict

/-- A concrete agent record. -/
def mkAgent : Agent :=
  { agent_name := "test-agent-1"
    agent_id := "001"
    ip := "192.168.1.100"
    agent_status := "Active"
    status_code := 0
    last_keep_alive := 5
    os := "Ubuntu"
    os_version := "20.04"
    group_name := "group1" }

/-- The persisted agent document with ingestion timestamp `ts`. -/
def agDoc (ts : Int) : Document :=
  (AgentModel.ofAgent mkAgent ts).to_dict

/-! ## Clause-level lemmas: each range clause the code writes, compared
with the spec-side window and severity predicates. -/

lemma matchesClause_ts_CO (s e : Int) (d : Document) :
    matchesClause d (.range "timestamp" (some s) none (some e) none)
      = tsInWindowCO s e d := by
  simp only [matchesClause, tsInWindowCO]
  cases d.getField "timestamp" with
  | none => rfl
  | some v =>
    cases v with
    | str _ => rfl
    | null => rfl
    | int t => simp [Option.all]

lemma matchesClause_ts_CC (s e : Int) (d : Document) :
    matchesClause d (.range "timestamp" (some s) (some e) none none)
      = tsInWindowCC s e d := by
  simp only [matchesClause, tsInWindowCC]
  cases d.getField "timestamp" with
  | none => rfl
  | some v =>
    cases v with
    | str _ => rfl
    | null => rfl
    | int t => simp [Option.all]

lemma matchesClause_level_band (d : Document) :
    matchesClause d (.range "rule_level" (some 8) (some 14) none none)
      = levelInBand 8 14 d := by
  simp only [matchesClause, levelInBand]
  cases d.getField "rule_level" with
  | none => rfl
  | some v =>
    cases v with
    | str _ => rfl
    | null => rfl
    | int n => simp [Option.all]

lemma matchesClause_level_gt (d : Document) :
    matchesClause d (.range "rule_level" none none none (some 8))
      = levelAbove 8 d := by
  simp only [matchesClause, levelAbove]
  cases d.getField "rule_level" with
  | none => rfl
  | some v =>
    cases v with
    | str _ => rfl
    | null => rfl
    | int n => simp [Option.all]

lemma tsInWindowCO_bounds {s e : Int} {d : Document}
    (h : tsInWindowCO s e d = true) : s ≤ docTs d ∧ docTs d < e := by
  unfold tsInWindowCO at h
  unfold docTs
  cases hf : d.getField "timestamp" with
  | none => rw [hf] at h; exact absurd h (by simp)
  | some v =>
    cases v with
    | str _ => rw [hf] at h; exact absurd h (by simp)
    | null => rw [hf] at h; exact absurd h (by simp)
    | int t =>
      rw [hf] at h
      simp only [hf]
      simpa using h

lemma tsInWindowCC_bounds {s e : Int} {d : Document}
    (h : tsInWindowCC s e d = true) : s ≤ docTs d ∧ docTs d ≤ e := by
  unfold tsInWindowCC at h
  unfold docTs
  cases hf : d.getField "timestamp" with
  | none => rw [hf] at h; exact absurd h (by simp)
  | some v =>
    cases v with
    | str _ => rw [hf] at h; exact absurd h (by simp)
    | null => rw [hf] at h; exact absurd h (by simp)
    | int t =>
      rw [hf] at h
      simp only [hf]
      simpa using h

/-- Documents returned by a search match every `must` clause. -/
lemma matches_of_mem_runSearch {store : Store} {q : Query} {d : Document}
    (h : d ∈ (runSearch store q).1) : matchesQuery q d = true := by
  unfold runSearch at h
  have h1 : d ∈ applySort q.sort (store.filter (matchesQuery q)) :=
    List.take_subset _ _ h
  have h2 : d ∈ store.filter (matchesQuery q) := by
    cases hs : q.sort with
    | noSort => rw [hs] at h1; exact h1
    | ascTimestamp =>
        rw [hs] at h1; exact (List.mem_insertionSort tsAsc).mp h1
    | descTimestamp =>
        rw [hs] at h1; exact (List.mem_insertionSort tsDesc).mp h1
  exact (List.mem_filter.mp h2).2

lemma matchesClause_of_matchesQuery {q : Query} {d : Document}
    (h : matchesQuery q d = true) {c : Clause} (hc : c ∈ q.must) :
    matchesClause d c = true :=
  List.all_eq_true.mp h c hc

/-! ## C1: the high-severity count -/

lemma matchesHighLevel (s e : Int) (d : Document) :
    matchesQuery (highLevelCountQuery s e) d
      = (tsInWindowCO s e d && levelInBand 8 14 d) := by
  show (matchesClause d (.range "timestamp" (some s) none (some e) none) &&
        (matchesClause d (.range "rule_level" (some 8) (some 14) none none) &&
          true))
      = (tsInWindowCO s e d && levelInBand 8 14 d)
  rw [matchesClause_ts_CO, matchesClause_level_band, Bool.and_true]

/-- Claim C1 (confirmed).  For every start and end time and store content,
`get_high_level_event_count` equals the number of documents whose
`rule_level` satisfies `8 ≤ rule_level ≤ 14` and whose timestamp lies in
`[start, end)` — it is a pure count (`es.count`, returning only a number,
no result bodies).  In particular over normalized events with severities
7, 8, 14, 15 inside the window, exactly the 8 and the 14 are counted:
levels 7 and 15 are excluded, 8 and 14 included. -/
theorem get_high_level_event_count_spec (s e : Int) (store : Store) :
    get_high_level_event_count store s e =
      store.countP (fun d => tsInWindowCO s e d && levelInBand 8 14 d) ∧
    get_high_level_event_count
      [evDoc 5 7, evDoc 5 8, evDoc 5 14, evDoc 5 15] 0 10 = 2 := by
  constructor
  · unfold get_high_level_event_count runCount
    rw [List.countP_eq_length_filter]
    congr 1
    apply List.filter_congr
    intro d _
    exact matchesHighLevel s e d
  · rfl

/-! ## C2: window boundary policies of the read operations -/

lemma ts_range_mem_loadAgents (s e : Int) (gs : Option (List String)) :
    Clause.range "timestamp" (some s) (some e) none none
      ∈ (loadAgentsQuery s e gs).must := by
  rcases gs with _ | gl
  · simp [loadAgentsQuery]
  · by_cases hg : gl.isEmpty <;> simp [loadAgentsQuery, hg]

lemma ts_range_mem_loadMessages (s e : Int) (gs : Option (List String))
    (lim : Nat) :
    Clause.range "timestamp" (some s) none (some e) none
      ∈ (loadMessagesQuery s e gs lim).must := by
  rcases gs with _ | gl
  · simp [loadMessagesQuery]
  · by_cases hg : gl.isEmpty <;> simp [loadMessagesQuery, hg]

/-- Claim C2 (counterexample).  The claim says the high-severity message
query shape is inclusive on both bounds (`timestamp ≤ end`).  It is not:
`load_messages` writes `lt` for the end bound, so a high-severity event
whose timestamp equals `end_time` — here timestamp 10 with window
`[0, 10]` and `rule_level = 9 > 8` — is not returned (empty page, total
0), although it lies in the claimed closed window. -/
theorem load_messages_excludes_end_bound :
    docTs (evDoc 10 9) = 10 ∧
    levelAbove 8 (evDoc 10 9) = true ∧
    tsInWindowCC 0 10 (evDoc 10 9) = true ∧
    load_messages [evDoc 10 9] 0 10 none 20 = ([], 0) :=
  ⟨rfl, rfl, rfl, rfl⟩

/-- Claim C2 (amended).  For all `(start, end)`, every returned document of
the four document-loading shapes (agents, group events, agent events, all
events) satisfies `start ≤ timestamp ≤ end` — those queries are inclusive
on both bounds — while the raw range scans used for aggregation *and* the
high-severity message query satisfy `start ≤ timestamp < end` —
inclusive-start/exclusive-end.  The final two conjuncts exhibit the
boundary behavior at `timestamp = end`: the agent query still matches, the
message query does not. -/
theorem time_window_bounds (store : Store) (s e : Int)
    (gs : Option (List String)) (gl : List String) (aid : String)
    (sz lim : Nat) :
    (∀ d ∈ load_agents store s e gs, s ≤ docTs d ∧ docTs d ≤ e) ∧
    (∀ d ∈ load_group_events store gl s e, s ≤ docTs d ∧ docTs d ≤ e) ∧
    (∀ d ∈ load_agent_events store aid s e, s ≤ docTs d ∧ docTs d ≤ e) ∧
    (∀ d ∈ load_all_events store s e, s ≤ docTs d ∧ docTs d ≤ e) ∧
    (∀ d ∈ get_events_in_timerange store s e sz, s ≤ docTs d ∧ docTs d < e) ∧
    (∀ d ∈ get_events_for_pie_chart store s e sz, s ≤ docTs d ∧ docTs d < e) ∧
    (∀ d ∈ (load_messages store s e gs lim).1, s ≤ docTs d ∧ docTs d < e) ∧
    matchesQuery (loadAgentsQuery 0 10 none) (agDoc 10) = true ∧
    matchesQuery (loadMessagesQuery 0 10 none 20) (evDoc 10 9) = false := by
  refine ⟨?_, ?_, ?_, ?_, ?_, ?_, ?_, by rfl, by rfl⟩
  · intro d hd
    unfold load_agents at hd
    have hm := matches_of_mem_runSearch hd
    have hc := matchesClause_of_matchesQuery hm (ts_range_mem_loadAgents s e gs)
    rw [matchesClause_ts_CC] at hc
    exact tsInWindowCC_bounds hc
  · intro d hd
    unfold load_group_events at hd
    have hm := matches_of_mem_runSearch hd
    have hmem : Clause.range "timestamp" (some s) (some e) none none
        ∈ (loadGroupEventsQuery gl s e).must := by simp [loadGroupEventsQuery]
    have hc := matchesClause_of_matchesQuery hm hmem
    rw [matchesClause_ts_CC] at hc
    exact tsInWindowCC_bounds hc
  · intro d hd
    unfold load_agent_events at hd
    have hm := matches_of_mem_runSearch hd
    have hmem : Clause.range "timestamp" (some s) (some e) none none
        ∈ (loadAgentEventsQuery aid s e).must := by simp [loadAgentEventsQuery]
    have hc := matchesClause_of_matchesQuery hm hmem
    rw [matchesClause_ts_CC] at hc
    exact tsInWindowCC_bounds hc
  · intro d hd
    unfold load_all_events at hd
    have hm := matches_of_mem_runSearch hd
    have hmem : Clause.range "timestamp" (some s) (some e) none none
        ∈ (loadAllEventsQuery s e).must := by simp [loadAllEventsQuery]
    have hc := matchesClause_of_matchesQuery hm hmem
    rw [matchesClause_ts_CC] at hc
    exact tsInWindowCC_bounds hc
  · intro d hd
    unfold get_events_in_timerange at hd
    have hm := matches_of_mem_runSearch hd
    have hmem : Clause.range "timestamp" (some s) none (some e) none
        ∈ (eventsInTimerangeQuery s e sz).must := by simp [eventsInTimerangeQuery]
    have hc := matchesClause_of_matchesQuery hm hmem
    rw [matchesClause_ts_CO] at hc
    exact tsInWindowCO_bounds hc
  · intro d hd
    unfold get_events_for_pie_chart at hd
    have hm := matches_of_mem_runSearch hd
    have hmem : Clause.range "timestamp" (some s) none (some e) none
        ∈ (pieChartQuery s e sz).must := by simp [pieChartQuery]
    have hc := matchesClause_of_matchesQuery hm hmem
    rw [matchesClause_ts_CO] at hc
    exact tsInWindowCO_bounds hc
  · intro d hd
    unfold load_messages at hd
    have hm := matches_of_mem_runSearch hd
    have hc := matchesClause_of_matchesQuery hm
      (ts_range_mem_loadMessages s e gs lim)
    rw [matchesClause_ts_CO] at hc
    exact tsInWindowCO_bounds hc

/-- Witness for `time_window_bounds` at a concrete store: the message page
bound applies to an event at timestamp 5 inside `[0, 10)`. -/
theorem time_window_bounds_witness :
    (0 : Int) ≤ docTs (evDoc 5 9) ∧ docTs (evDoc 5 9) < 10 :=
  (time_window_bounds [evDoc 5 9] 0 10 none [] "001" 10000 20).2.2.2.2.2.2.1
    (evDoc 5 9) (by decide)

/-! ## C3: the paginated high-severity feed -/

lemma matchesClause_terms_group (gl : List String) (d : Document) :
    matchesClause d (.terms "group_name" gl)
      = (match d.getField "group_name" with
         | some (Value.str g) => gl.contains g
         | _ => false) := by
  simp only [matchesClause]

lemma matchesMessages (s e : Int) (gs : Option (List String)) (lim : Nat)
    (d : Document) :
    matchesQuery (loadMessagesQuery s e gs lim) d
      = specMessageMatch s e gs d := by
  have hts := matchesClause_ts_CO s e d
  have hlv := matchesClause_level_gt d
  rcases gs with _ | gl
  · simp only [loadMessagesQuery, matchesQuery, List.all_cons, List.all_nil,
      Bool.and_true, specMessageMatch, groupAllowed, hts, hlv]
  · by_cases hg : gl.isEmpty
    · simp only [loadMessagesQuery, matchesQuery, hg, if_true, List.all_cons,
        List.all_nil, Bool.and_true, specMessageMatch, groupAllowed, hts, hlv]
    · simp only [loadMessagesQuery, matchesQuery, hg, if_false,
        Bool.false_eq_true, List.all_append, List.all_cons, List.all_nil,
        Bool.and_true, specMessageMatch, groupAllowed, hts, hlv,
        matchesClause_terms_group, Bool.and_assoc]

/-- The conclusion of the C3 theorem, as one predicate on the inputs of
`load_messages`: the page holds at most `limit` documents, each in the
half-open window with `rule_level > 8` and an allowed group, sorted
descending by timestamp; the page is the `limit`-prefix of the full sorted
matching set; and the reported total is the full matching count. -/
def messagesSpecProp (store : Store) (s e : Int)
    (gs : Option (List String)) (limit : Nat) : Prop :=
  (load_messages store s e gs limit).1.length ≤ limit ∧
  (∀ d ∈ (load_messages store s e gs limit).1,
     specMessageMatch s e gs d = true) ∧
  List.Sorted tsDesc (load_messages store s e gs limit).1 ∧
  (load_messages store s e gs limit).1 =
    ((store.filter (specMessageMatch s e gs)).insertionSort tsDesc).take limit ∧
  (load_messages store s e gs limit).2 =
    store.countP (specMessageMatch s e gs)

/-- Claim C3 (confirmed).  For every store content, start and end time,
optional group filter and limit in `1..100`, `load_messages` returns only
events with `rule_level > 8` in `[start, end)`, optionally restricted by
group, sorted descending by timestamp, truncated to at most `limit`
documents, together with a total equal to the full matching count. -/
theorem load_messages_paginated_spec (store : Store) (s e : Int)
    (gs : Option (List String)) (limit : Nat)
    (h1 : 1 ≤ limit) (h2 : limit ≤ 100) :
    messagesSpecProp store s e gs limit := by
  have hfil : store.filter (matchesQuery (loadMessagesQuery s e gs limit))
      = store.filter (specMessageMatch s e gs) :=
    List.filter_congr fun d _ => matchesMessages s e gs limit d
  have hpage : (load_messages store s e gs limit).1
      = ((store.filter (specMessageMatch s e gs)).insertionSort tsDesc).take
          limit := by
    have h0 : (load_messages store s e gs limit).1
        = ((store.filter
              (matchesQuery (loadMessagesQuery s e gs limit))).insertionSort
            tsDesc).take limit := rfl
    rw [h0, hfil]
  have htotal : (load_messages store s e gs limit).2
      = store.countP (specMessageMatch s e gs) := by
    have h0 : (load_messages store s e gs limit).2
        = (store.filter
            (matchesQuery (loadMessagesQuery s e gs limit))).length := rfl
    rw [h0, hfil, ← List.countP_eq_length_filter]
  refine ⟨?_, ?_, ?_, hpage, htotal⟩
  · rw [hpage]
    exact List.length_take_le _ _
  · intro d hd
    rw [hpage] at hd
    have h3 : d ∈ (store.filter (specMessageMatch s e gs)).insertionSort
        tsDesc := List.take_subset _ _ hd
    have h4 := (List.mem_insertionSort tsDesc).mp h3
    exact (List.mem_filter.mp h4).2
  · rw [hpage]
    exact List.Pairwise.sublist (List.take_sublist _ _)
      (List.sorted_insertionSort tsDesc _)

/-- The five-matching-event store of the spec scenario: five events with
`rule_level > 8` in the window, plus one low-severity event. -/
def store5 : Store :=
  [evDoc 1 9, evDoc 2 10, evDoc 3 11, evDoc 4 12, evDoc 5 13, evDoc 6 3]

/-- Witness for `load_messages_paginated_spec`: requesting `limit = 2`
against 5 matching high-severity events returns exactly 2 documents and a
total of 5. -/
theorem load_messages_paginated_witness :
    ((1 ≤ 2 ∧ 2 ≤ 100) ∧ messagesSpecProp store5 0 100 none 2) ∧
    (load_messages store5 0 100 none 2).1.length = 2 ∧
    (load_messages store5 0 100 none 2).2 = 5 :=
  ⟨⟨⟨by decide, by decide⟩,
    load_messages_paginated_spec store5 0 100 none 2 (by decide) (by decide)⟩,
   by decide, by decide⟩

/-! ## C4: partition creation is idempotent -/

lemma hasIndex_cons_self (k : String) (mp : List (String × String))
    (rest : List (String × List (String × String))) :
    EsIndices.hasIndex ⟨(k, mp) :: rest⟩ k = true := by
  simp [EsIndices.hasIndex]

/-- Claim C4 (confirmed).  When a call of `get_index_name` for month
`(year, month)` succeeds with key `k1` and store state `st1`, then: the
key is the month key `{YYYY}_{MM}_agents_data`; a second call in the same
month returns the same key and state and cannot fail, whatever the store
creation outcome; a first call that loses the creation race (the store
reports the index already exists) still succeeds; and any other creation
error is surfaced to the caller. -/
theorem ensure_active_partition_idempotent (y m : Nat) (st : EsIndices)
    (o1 : CreateOutcome) (k1 : String) (st1 : EsIndices)
    (h : get_index_name y m st o1 = .ok (k1, st1)) :
    k1 = partitionKeyOf y m ∧
    (∀ o2, get_index_name y m st1 o2 = .ok (k1, st1)) ∧
    (st.hasIndex (partitionKeyOf y m) = false →
      get_index_name y m st .alreadyExists
        = .ok (partitionKeyOf y m,
            ⟨(partitionKeyOf y m, partitionMapping) :: st.existing⟩)) ∧
    (∀ msg, st.hasIndex (partitionKeyOf y m) = false →
      get_index_name y m st (.otherError msg) = .error msg) := by
  unfold get_index_name create_index_with_mapping at h ⊢
  by_cases hex : st.hasIndex (partitionKeyOf y m)
  · rw [if_pos hex] at h
    injection h with h
    injection h with hk hst
    subst hk
    subst hst
    refine ⟨rfl, fun o2 => by rw [if_pos hex], ?_, ?_⟩
    · intro hcon; rw [hcon] at hex; exact absurd hex (by simp)
    · intro msg hcon; rw [hcon] at hex; exact absurd hex (by simp)
  · rw [if_neg hex] at h
    have hexf : st.hasIndex (partitionKeyOf y m) = false := by
      simpa using hex
    cases o1 with
    | created =>
        injection h with h
        injection h with hk hst
        subst hk
        subst hst
        refine ⟨rfl, fun o2 => ?_, fun _ => by rw [if_neg hex], fun msg _ => by
          rw [if_neg hex]⟩
        rw [if_pos (hasIndex_cons_self _ _ _)]
    | alreadyExists =>
        injection h with h
        injection h with hk hst
        subst hk
        subst hst
        refine ⟨rfl, fun o2 => ?_, fun _ => by rw [if_neg hex], fun msg _ => by
          rw [if_neg hex]⟩
        rw [if_pos (hasIndex_cons_self _ _ _)]
    | otherError msg => exact absurd h (by simp)

/-- Witness for `ensure_active_partition_idempotent`: October 2026, empty
store, successful creation; the second call succeeds even when the store
would report an error, because no creation is attempted. -/
theorem ensure_active_partition_witness :
    "2026_10_agents_data" = partitionKeyOf 2026 10 ∧
    get_index_name 2026 10 ⟨[("2026_10_agents_data", partitionMapping)]⟩
        (.otherError "disk full")
      = .ok ("2026_10_agents_data",
          ⟨[("2026_10_agents_data", partitionMapping)]⟩) := by
  have h : get_index_name 2026 10 ⟨[]⟩ .created
      = .ok ("2026_10_agents_data",
          ⟨[("2026_10_agents_data", partitionMapping)]⟩) := rfl
  have hthm := ensure_active_partition_idempotent 2026 10 ⟨[]⟩ .created
    "2026_10_agents_data" ⟨[("2026_10_agents_data", partitionMapping)]⟩ h
  exact ⟨hthm.1, hthm.2.1 (.otherError "disk full")⟩

/-! ## C5: fault translation -/

def StoreExc.isNotFound : StoreExc → Bool
  | .notFoundError _ => true
  | _ => false

/-- Claim C5 (counterexample).  `EventModel.load_messages` is not decorated
with `handle_es_exceptions`; its own `except Exception` block turns *every*
store exception — a `NotFoundError` included — into `ElasticsearchError`,
so a not-found condition does not surface as the not-found fault there. -/
theorem load_messages_notfound_not_translated :
    loadMessagesTranslate
        (Except.error (StoreExc.notFoundError "no such index")
          : Except StoreExc (List Document × Nat))
      = Except.error (DomainError.elasticsearchError
          "Error loading high-level messages: no such index" none) ∧
    loadMessagesTranslate
        (Except.error (StoreExc.notFoundError "no such index")
          : Except StoreExc (List Document × Nat))
      ≠ Except.error (DomainError.userNotFound "no such index" 404) :=
  ⟨rfl, by simp [loadMessagesTranslate]⟩

/-- Claim C5 (amended).  Only the three read operations that are decorated
with `handle_es_exceptions` and have no inner except block
(`load_group_events_from_elasticsearch`,
`load_from_elasticsearch_with_time_range`,
`load_all_events_from_elasticsearch`) translate a store `NotFoundError`
into `UserNotFoundError(404)` and any other exception into
`ElasticsearchError(500)`.  `load_agents`, although decorated, wraps its
whole body in its own `except Exception` (wazuh_db.py 190-192), which
converts every exception — `NotFoundError` included — into
`ElasticsearchError` before the decorator runs, so `load_agents` never
surfaces the not-found fault.  The undecorated aggregation operations
(`load_messages`, `get_events_in_timerange`, `get_high_level_event_count`,
`get_events_for_pie_chart`) likewise turn every exception, not-found
included, into `ElasticsearchError`, and the two `save_to_elasticsearch`
methods re-raise the original exception untranslated. -/
theorem fault_translation_spec (A : Type) (e : StoreExc) (m p : String) :
    decoratedTranslate
        (Except.error (StoreExc.notFoundError m) : Except StoreExc A)
      = Except.error (DomainError.userNotFound m 404) ∧
    (e.isNotFound = false →
      decoratedTranslate (Except.error e : Except StoreExc A)
        = Except.error (DomainError.elasticsearchError
            ("Elasticsearch error: " ++ e.msg) (some 500))) ∧
    loadAgentsTranslate (Except.error e : Except StoreExc A)
      = Except.error (DomainError.elasticsearchError
          ("Elasticsearch error: " ++ ("Error loading agents: " ++ e.msg))
          (some 500)) ∧
    loadMessagesTranslate (Except.error e : Except StoreExc A)
      = Except.error (DomainError.elasticsearchError
          ("Error loading high-level messages: " ++ e.msg) none) ∧
    aggregationTranslate p (Except.error e : Except StoreExc A)
      = Except.error (DomainError.elasticsearchError (p ++ e.msg) none) ∧
    saveTranslate (Except.error e : Except StoreExc A)
      = Except.error e := by
  refine ⟨rfl, ?_, rfl, ?_, ?_, rfl⟩
  · intro hnf
    cases e with
    | notFoundError m2 => exact absurd hnf (by simp [StoreExc.isNotFound])
    | requestError m2 => rfl
    | otherExc m2 => rfl
  · cases e <;> rfl
  · cases e <;> rfl

/-- Witness for `fault_translation_spec`: a transport error through the
plainly decorated path, and a store not-found through the `load_agents`
path, which surfaces as the store fault, not the not-found fault. -/
theorem fault_translation_witness :
    (StoreExc.otherExc "connection refused").isNotFound = false ∧
    decoratedTranslate
        (Except.error (StoreExc.otherExc "connection refused")
          : Except StoreExc Nat)
      = Except.error (DomainError.elasticsearchError
          "Elasticsearch error: connection refused" (some 500)) ∧
    loadAgentsTranslate
        (Except.error (StoreExc.notFoundError "no such index")
          : Except StoreExc Nat)
      = Except.error (DomainError.elasticsearchError
          ("Elasticsearch error: " ++
            ("Error loading agents: " ++ "no such index")) (some 500)) :=
  ⟨by decide,
   (fault_translation_spec Nat (StoreExc.otherExc "connection refused")
      "m" "p").2.1 (by decide),
   (fault_translation_spec Nat (StoreExc.notFoundError "no such index")
      "m" "p").2.2.1⟩

/-! ## C6: agent status normalization -/

lemma esGetById_esIndexWithId (ks : KeyedStore) (id : String)
    (b : Document) : esGetById (esIndexWithId ks id b) id = some b := by
  induction ks with
  | nil => simp [esIndexWithId, esGetById, List.find?]
  | cons kv rest ih =>
    by_cases h : kv.1 == id
    · simp [esIndexWithId, h, esGetById, List.find?]
    · unfold esIndexWithId
      rw [if_neg (by simpa using h)]
      unfold esGetById at ih ⊢
      rw [List.find?_cons_of_neg _ (by simpa using h)]
      exact ih

/-- Claim C6 (confirmed).  Normalization lowercases the agent status before
persisting: the persisted document carries
`agent_status = str(status).lower()`; saving the agent stores exactly that
document under the id `agent_{agent_id}`, from which it is retrievable;
and `"Active"` lowercases to `"active"`. -/
theorem agent_status_lowercased (a : Agent) (now : Int) (ks : KeyedStore) :
    (AgentModel.ofAgent a now).to_dict.getField "agent_status"
      = some (.str (pyLower a.agent_status)) ∧
    esGetById (agent_save_to_elasticsearch ks (AgentModel.ofAgent a now))
        ("agent_" ++ a.agent_id)
      = some (AgentModel.ofAgent a now).to_dict ∧
    pyLower "Active" = "active" :=
  ⟨rfl, esGetById_esIndexWithId ks _ _, by decide⟩

/-! ## C7: unsupplied MITRE fields in the normalized event document -/

/-- A concrete event without any MITRE metadata. -/
def noMitreEvent : WazuhEvent :=
  { timestamp := 5
    agent_id := "001"
    agent_ip := "192.168.1.100"
    rule_description := "File added to the system."
    rule_level := 3
    rule_id := "550"
    rule_mitre_id := none
    rule_mitre_tactic := none
    rule_mitre_technique := none
    group_name := "group1" }

/-- Claim C7 (counterexample).  For an event with no MITRE metadata,
`EventModel.to_dict` writes all three MITRE keys anyway — each key is
present in the produced document and holds a null value, not absent as the
claim states. -/
theorem event_mitre_keys_present_with_null :
    ((EventModel.ofEvent noMitreEvent).to_dict.map Prod.fst).contains
        "rule_mitre_id" = true ∧
    ((EventModel.ofEvent noMitreEvent).to_dict.map Prod.fst).contains
        "rule_mitre_tactic" = true ∧
    ((EventModel.ofEvent noMitreEvent).to_dict.map Prod.fst).contains
        "rule_mitre_technique" = true ∧
    (EventModel.ofEvent noMitreEvent).to_dict.getField "rule_mitre_id"
      = some Value.null ∧
    (EventModel.ofEvent noMitreEvent).to_dict.getField "rule_mitre_tactic"
      = some Value.null ∧
    (EventModel.ofEvent noMitreEvent).to_dict.getField "rule_mitre_technique"
      = some Value.null :=
  ⟨rfl, rfl, rfl, rfl, rfl, rfl⟩

/-- Claim C7 (amended).  Normalization is a total function that cannot fail
on missing optional fields, and for every event each optional MITRE field
appears in the produced document: as the string value when supplied, as a
*null value under a present key* — not absent — when not supplied. -/
theorem event_mitre_fields_total (ev : WazuhEvent) :
    (EventModel.ofEvent ev).to_dict.getField "rule_mitre_id"
      = some (match ev.rule_mitre_id with
              | some s => Value.str s
              | none => Value.null) ∧
    (EventModel.ofEvent ev).to_dict.getField "rule_mitre_tactic"
      = some (match ev.rule_mitre_tactic with
              | some s => Value.str s
              | none => Value.null) ∧
    (EventModel.ofEvent ev).to_dict.getField "rule_mitre_technique"
      = some (match ev.rule_mitre_technique with
              | some s => Value.str s
              | none => Value.null) :=
  ⟨rfl, rfl, rfl⟩

/-! ## C8: list-shaped MITRE tactic at the ingestion boundary -/

/-- Claim C8 (code is wrong).  The declared field type
`rule_mitre_tactic: Optional[str]` rejects a list-shaped tactic with a
`ValidationError`, even though the schema module documents list-shaped
tactics in its own request examples (`"rule_mitre_tactic": ["Impact"]`)
and a single string or an omitted field passes. -/
theorem rule_mitre_tactic_list_rejected :
    validateRuleMitreTactic (.arr [.str "Impact"])
      = .error "Input should be a valid string" ∧
    validateRuleMitreTactic (.str "Persistence") = .ok (some "Persistence") ∧
    validateRuleMitreTactic .null = .ok none :=
  ⟨rfl, rfl, rfl⟩

/-! ## C9: top-N ranking for the pie-chart views -/

lemma charListLe_total : ∀ as bs : List Char,
    charListLe as bs = true ∨ charListLe bs as = true := by
  intro as
  induction as with
  | nil => intro bs; exact Or.inl rfl
  | cons a as ih =>
    intro bs
    cases bs with
    | nil => exact Or.inr rfl
    | cons b bs2 =>
      rcases Nat.lt_trichotomy a.toNat b.toNat with h | h | h
      · left; simp [charListLe, h]
      · rcases ih bs2 with h2 | h2
        · left; simp [charListLe, h, h2]
        · right; simp [charListLe, h, h2]
      · right; simp [charListLe, h]

lemma charListLe_trans : ∀ as bs cs : List Char,
    charListLe as bs = true → charListLe bs cs = true →
    charListLe as cs = true := by
  intro as
  induction as with
  | nil => intro bs cs _ _; rfl
  | cons a as ih =>
    intro bs cs h1 h2
    cases bs with
    | nil => simp [charListLe] at h1
    | cons b bs2 =>
      cases cs with
      | nil => simp [charListLe] at h2
      | cons c cs2 =>
        rcases Nat.lt_trichotomy a.toNat b.toNat with hab | hab | hab
        · rcases Nat.lt_trichotomy b.toNat c.toNat with hbc | hbc | hbc
          · simp [charListLe, Nat.lt_trans hab hbc]
          · simp [charListLe, hbc ▸ hab]
          · simp [charListLe, hbc, Nat.lt_asymm hbc] at h2
        · rcases Nat.lt_trichotomy b.toNat c.toNat with hbc | hbc | hbc
          · simp [charListLe, hab ▸ hbc]
          · simp [charListLe, hab] at h1
            simp [charListLe, hbc] at h2
            have hac : a.toNat = c.toNat := hab.trans hbc
            simp [charListLe, hac]
            exact ih bs2 cs2 h1 h2
          · simp [charListLe, hbc, Nat.lt_asymm hbc] at h2
        · simp [charListLe, hab, Nat.lt_asymm hab] at h1

instance : IsTotal (String × Nat) rankRel :=
  ⟨fun a b => by
    rcases lt_trichotomy a.2 b.2 with h | h | h
    · exact Or.inr (Or.inl h)
    · rcases charListLe_total a.1.data b.1.data with hs | hs
      · exact Or.inl (Or.inr ⟨h, hs⟩)
      · exact Or.inr (Or.inr ⟨h.symm, hs⟩)
    · exact Or.inl (Or.inl h)⟩

instance : IsTrans (String × Nat) rankRel :=
  ⟨fun a b c hab hbc => by
    rcases hab with h1 | ⟨h1, h1s⟩ <;> rcases hbc with h2 | ⟨h2, h2s⟩
    · exact Or.inl (lt_trans h2 h1)
    · exact Or.inl (by rw [← h2]; exact h1)
    · exact Or.inl (by rw [h1]; exact h2)
    · exact Or.inr ⟨h1.trans h2, charListLe_trans _ _ _ h1s h2s⟩⟩

/-- Claim C9 (confirmed, against the spec-modelled ranking).  The ranking is
deterministic with a lexical tie-break — `{A:3, B:3, C:1}` by label gives
top-2 `[A,3],[B,3]` whichever order the events arrive in; a null/absent
key contributes nothing to the ranking; the output holds at most `n`
pairs, is sorted by descending count with ascending label on ties, and
every emitted pair is a real group: its label occurs among the keys and
its value is the exact occurrence count of that label. -/
theorem topN_ranking_spec (n : Nat) (keys : List (Option String)) :
    topN 2 [some "A", some "B", some "A", some "B", some "C",
            some "A", some "B"]
      = [("A", 3), ("B", 3)] ∧
    topN 2 [some "B", some "A", some "B", some "A", some "C",
            some "B", some "A"]
      = [("A", 3), ("B", 3)] ∧
    topN n ((none : Option String) :: keys) = topN n keys ∧
    (topN n keys).length ≤ n ∧
    List.Sorted rankRel (topN n keys) ∧
    (∀ p ∈ topN n keys, some p.1 ∈ keys ∧
       p.2 = (keys.filterMap id).count p.1) := by
  refine ⟨by decide, by decide, rfl, ?_, ?_, ?_⟩
  · exact List.length_take_le _ _
  · exact List.Pairwise.sublist (List.take_sublist _ _)
      (List.sorted_insertionSort rankRel _)
  · intro p hp
    have h1 : p ∈ ((keys.filterMap id).dedup.map
        fun l => (l, (keys.filterMap id).count l)).insertionSort rankRel :=
      List.take_subset _ _ hp
    have h2 := (List.mem_insertionSort rankRel).mp h1
    rcases List.mem_map.mp h2 with ⟨l, hl, hpl⟩
    have hlab : l ∈ keys.filterMap id := List.mem_dedup.mp hl
    rcases List.mem_filterMap.mp hlab with ⟨a, ha, hal⟩
    constructor
    · rw [← hpl]
      simpa [← hal] using ha
    · rw [← hpl]

/-- Witness for `topN_ranking_spec`: the pair `("A", 2)` emitted for keys
`[A, null, B, A]` has its label among the keys and value 2, the exact
count of `A`. -/
theorem topN_ranking_witness :
    some "A" ∈ [some "A", none, some "B", some "A"] ∧
    ("A", 2).2 = (([some "A", none, some "B",
        some "A"] : List (Option String)).filterMap id).count ("A", 2).1 :=
  (topN_ranking_spec 2 [some "A", none, some "B", some "A"]).2.2.2.2.2
    ("A", 2) (by decide)

/-! ## C10: the discriminator field in the raw scans -/

/-- Claim C10 (counterexample).  The claim says the five shaped queries all
filter on the discriminator `wazuh_data_type`; the high-severity message
query does not — with or without a group filter, its must list holds no
clause over that field. -/
theorem load_messages_query_lacks_discriminator :
    hasDiscriminatorFilter (loadMessagesQuery 0 10 none 20) = false ∧
    hasDiscriminatorFilter (loadMessagesQuery 0 10 (some ["group1"]) 20)
      = false :=
  ⟨rfl, rfl⟩

/-- Claim C10 (amended).  The raw range scans feeding aggregation
(`get_events_in_timerange`, `get_events_for_pie_chart`) carry no clause
over `wazuh_data_type`, so any `agent_info` document whose timestamp lies
in the window is part of their result set (whenever the page size is not
exceeded).  The four document-loading queries (agents, group events, agent
events, all events) do filter on the discriminator.  `load_messages` also
lacks the discriminator clause, but its `rule_level` range cannot match a
document without a `rule_level` field, so agent documents are excluded
there anyway. -/
theorem raw_scans_have_no_discriminator_filter (s e : Int) (sz lim : Nat)
    (gs : Option (List String)) (gl : List String) (aid : String)
    (store : Store) (d : Document) :
    hasDiscriminatorFilter (eventsInTimerangeQuery s e sz) = false ∧
    hasDiscriminatorFilter (pieChartQuery s e sz) = false ∧
    hasDiscriminatorFilter (loadAgentsQuery s e gs) = true ∧
    hasDiscriminatorFilter (loadGroupEventsQuery gl s e) = true ∧
    hasDiscriminatorFilter (loadAgentEventsQuery aid s e) = true ∧
    hasDiscriminatorFilter (loadAllEventsQuery s e) = true ∧
    hasDiscriminatorFilter (loadMessagesQuery s e gs lim) = false ∧
    (d ∈ store → tsInWindowCO s e d = true → store.length ≤ sz →
      d ∈ get_events_in_timerange store s e sz ∧
      d ∈ get_events_for_pie_chart store s e sz) ∧
    (d.getField "rule_level" = none →
      matchesQuery (loadMessagesQuery s e gs lim) d = false) := by
  have hm : ∀ q : Query,
      q.must = [Clause.range "timestamp" (some s) none (some e) none] →
      tsInWindowCO s e d = true → matchesQuery q d = true := by
    intro q hq hts
    unfold matchesQuery
    rw [hq]
    simp [matchesClause_ts_CO, hts]
  refine ⟨rfl, rfl, ?_, rfl, rfl, rfl, ?_, ?_, ?_⟩
  · rcases gs with _ | g2
    · rfl
    · by_cases hg : g2.isEmpty <;>
        simp [loadAgentsQuery, hasDiscriminatorFilter, hg]
  · rcases gs with _ | g2
    · rfl
    · by_cases hg : g2.isEmpty <;>
        simp [loadMessagesQuery, hasDiscriminatorFilter, hg]
  · intro hmem hts hlen
    have hfl1 : d ∈ store.filter
        (matchesQuery (eventsInTimerangeQuery s e sz)) :=
      List.mem_filter.mpr ⟨hmem, hm _ rfl hts⟩
    have hfl2 : d ∈ store.filter (matchesQuery (pieChartQuery s e sz)) :=
      List.mem_filter.mpr ⟨hmem, hm _ rfl hts⟩
    have hlen1 : ((store.filter
        (matchesQuery (eventsInTimerangeQuery s e sz))).insertionSort
          tsAsc).length ≤ sz := by
      rw [List.length_insertionSort]
      exact le_trans (List.length_filter_le _ _) hlen
    have hlen2 : ((store.filter
        (matchesQuery (pieChartQuery s e sz))).insertionSort
          tsAsc).length ≤ sz := by
      rw [List.length_insertionSort]
      exact le_trans (List.length_filter_le _ _) hlen
    constructor
    · show d ∈ ((store.filter
          (matchesQuery (eventsInTimerangeQuery s e sz))).insertionSort
            tsAsc).take sz
      rw [List.take_of_length_le hlen1]
      exact (List.mem_insertionSort tsAsc).mpr hfl1
    · show d ∈ ((store.filter
          (matchesQuery (pieChartQuery s e sz))).insertionSort
            tsAsc).take sz
      rw [List.take_of_length_le hlen2]
      exact (List.mem_insertionSort tsAsc).mpr hfl2
  · intro hno
    rw [matchesMessages]
    unfold specMessageMatch levelAbove
    rw [hno]
    simp

/-- Witness for `raw_scans_have_no_discriminator_filter`: a concrete
`agent_info` document inside the window is returned by both raw scans. -/
theorem raw_scans_witness :
    agDoc 5 ∈ get_events_in_timerange [agDoc 5] 0 10 10000 ∧
    agDoc 5 ∈ get_events_for_pie_chart [agDoc 5] 0 10 10000 :=
  (raw_scans_have_no_discriminator_filter 0 10 10000 20 none [] "001"
    [agDoc 5] (agDoc 5)).2.2.2.2.2.2.2.1 (by decide) (by decide) (by decide)

end ThreatGraph
